import Mathlib

/-!
Shallow embedding of the mpdfav MPD client (src/client.go, src/playcount.go)
and proofs about the specification's claims.

Conventions of the embedding:
* Go `error` results and run-time panics are modelled by `Except GoError`.
* The line-oriented connection is modelled by a `List String` of reply lines;
  reading a line takes the head of the list.
* Go `map[string]string` (the `Info` type) is modelled as an association list
  where insertion prepends, so that the first matching binding is the current
  one (Go map overwrite semantics under lookup).
* Go machine integers are modelled as `Int`; `strconv.Atoi`'s 64-bit range
  check is explicit, and the one place where overflow can occur
  (`intval += 1` in `incSongPlayCount`) wraps via `wrap64`.
-/

namespace Mpdfav

/-- A Go-side failure: either an `error` value returned to the caller, or a
run-time panic. -/
inductive GoError where
  | err (msg : String)
  | panic (msg : String)
deriving DecidableEq, Repr

deriving instance DecidableEq for Except

/-- `type Info map[string]string` from client.go, as an association list;
insertion prepends and lookup takes the first match, mirroring map
overwrite semantics. -/
abbrev Info := List (String × String)

/-- Go map read with the comma-ok form: `v, ok := m[k]`. -/
def Info.lookupKey (i : Info) (k : String) : Option String :=
  List.lookup k i

/-- Go map read without the ok: a missing key yields the zero value `""`. -/
def Info.getD (i : Info) (k : String) : String :=
  (Info.lookupKey i k).getD ""

/-- Go map write `m[k] = v`, as a shadowing prepend. -/
def Info.insert (i : Info) (k v : String) : Info :=
  (k, v) :: i

/-- `strings.Index(hay, pat)`: index of the first occurrence of `pat` in
`hay`, `none` when absent (Go returns -1). -/
def strIndex (pat : List Char) : List Char → Option Nat
  | [] => if pat.isPrefixOf ([] : List Char) then some 0 else none
  | l@(_ :: t) =>
    if pat.isPrefixOf l then some 0 else (strIndex pat t).map (· + 1)

/-- `strings.Index(hay, pat) != -1`, i.e. substring containment. -/
def containsSub (s pat : String) : Bool :=
  (strIndex pat.toList s.toList).isSome

/-- Value of a decimal digit character. -/
def digitVal (c : Char) : Option Nat :=
  if '0' ≤ c ∧ c ≤ '9' then some (c.toNat - '0'.toNat) else none

/-- Accumulating decimal parse over a digit list; fails on any non-digit. -/
def parseDigitsAux (acc : Nat) : List Char → Option Nat
  | [] => some acc
  | c :: t =>
    match digitVal c with
    | none => none
    | some d => parseDigitsAux (acc * 10 + d) t

/-- Nonempty all-digit parse. -/
def parseDigits : List Char → Option Nat
  | [] => none
  | l => parseDigitsAux 0 l

/-- Optionally signed decimal integer syntax, as accepted by Go's
`strconv` integer scanners. -/
def parseSignedInt : List Char → Option Int
  | '-' :: t => (parseDigits t).map (fun n => -(n : Int))
  | '+' :: t => (parseDigits t).map (fun n => (n : Int))
  | l => (parseDigits l).map (fun n => (n : Int))

def int64Min : Int := -(2 ^ 63)
def int64Max : Int := 2 ^ 63 - 1

/-- `strconv.Atoi`: signed decimal syntax plus the 64-bit range check. -/
def Atoi (s : String) : Option Int :=
  match parseSignedInt s.toList with
  | none => none
  | some n => if int64Min ≤ n ∧ n ≤ int64Max then some n else none

/-- `strconv.Itoa`. -/
def Itoa (n : Int) : String := toString n

/-- Two's-complement wrap of a 64-bit signed addition result. -/
def wrap64 (x : Int) : Int := (x + 2 ^ 63) % 2 ^ 64 - 2 ^ 63

/-- `strconv.ParseFloat` followed by Go's `int(...)` truncation, modelled on
the integral numerals the daemon reports in `time: e:t` values (on those the
truncation is the identity). -/
def parseNum (l : List Char) : Option Int := parseSignedInt l

/-- `Info.Progress` from client.go.  The original indexes
`t[0:fieldSepIndex]` with `fieldSepIndex = -1` when the value has no colon,
which panics; the parse error of the elapsed component is shadowed by the
total component's (`err` is overwritten), and a failed `ParseFloat` leaves
the Go zero value `0` in `current`. -/
def Info.Progress (i : Info) : Except GoError (Int × Int) :=
  match Info.lookupKey i "time" with
  | none => .ok (0, 0)
  | some t =>
    match strIndex [':'] t.toList with
    | none => .error (.panic "slice bounds out of range")
    | some idx =>
      let current := (parseNum (t.toList.take idx)).getD 0
      match parseNum (t.toList.drop (idx + 1)) with
      | none => .ok (0, 0)
      | some total => .ok (current, total)

/-- `songPlayedThresholdSeconds` from playcount.go. -/
def songPlayedThresholdSeconds : Int := 10

/-- `considerSongPlayed` from playcount.go. -/
def considerSongPlayed (statusInfo : Info) (limit : Int) : Except GoError Bool :=
  match Info.Progress statusInfo with
  | .error e => .error e
  | .ok (current, total) =>
    if total = 0 ∨ current = 0 then .ok false
    else .ok (decide (total - current < limit))

/-- `isMPDError` from client.go: the line contains the token `ACK`. -/
def isMPDError (line : String) : Bool :=
  containsSub line "ACK"

/-- Index of the last `=` in a list of characters. -/
def lastEq : List Char → Option Nat
  | [] => none
  | c :: t =>
    match lastEq t with
    | some j => some (j + 1)
    | none => if c = '=' then some 0 else none

/-- `stickerGetRegexp.FindStringSubmatch` for the pattern
`sticker: (.+)=(.*)`, returning capture group 2 (the value).  The match is
leftmost: the first position carrying the literal `sticker: ` whose suffix
contains an `=` preceded by at least one character matches, and the greedy
`(.+)` pairs `(.*)` with the segment after the last `=` of that suffix. -/
def svAux : List Char → Option String
  | [] => none
  | l@(_ :: t) =>
    if "sticker: ".toList.isPrefixOf l then
      let s := l.drop 9
      match lastEq s with
      | some j => if 1 ≤ j then some (String.mk (s.drop (j + 1))) else svAux t
      | none => svAux t
    else svAux t

/-- The extracted sticker value of a reply line, when the line matches the
sticker regexp. -/
def stickerValue (line : String) : Option String :=
  svAux line.toList

/-- `MPDClient.StickerGet` from client.go, over a stream of reply lines.
The Go code ignores the read error of the first `ReadLine` (modelled by the
`""` default on an empty stream) but checks the second's (modelled by the
explicit error on an empty remainder). -/
def StickerGet (lines : List String) : Except GoError (String × List String) :=
  let line := lines.head?.getD ""
  let rest := lines.tail
  match stickerValue line with
  | none =>
    if isMPDError line = false then .ok ("", rest)
    else if containsSub line "no such sticker" then .ok ("", rest)
    else .error (.err ("StickerGet: " ++ line))
  | some v =>
    match rest with
    | [] => .error (.err "read error")
    | okLine :: r2 =>
      if okLine = "OK" then .ok (v, r2)
      else .error (.err ("StickerGet didn't receive OK line: " ++ okLine))

/-- `MPDClient.StickerSet` from client.go, over a stream of reply lines
(the read error is ignored by the Go code, modelled by the `""` default). -/
def StickerSet (lines : List String) : Except GoError (List String) :=
  let line := lines.head?.getD ""
  if line = "OK" then .ok lines.tail
  else .error (.err ("StickerSet: " ++ line))

/-- The daemon's sticker database, keyed by track file path. -/
abbrev Store := List (String × String)

/-- Modelled from the spec: the daemon (not part of this repository) replies
to `sticker get` with a `sticker: <key>=<value>` line followed by `OK` when
the sticker exists, and with a single error line containing `ACK` and
`no such sticker` when it does not (wire protocol, spec section 6). -/
def serverStickerGetReply (name : String) (v? : Option String) : List String :=
  match v? with
  | some v => ["sticker: " ++ name ++ "=" ++ v, "OK"]
  | none => ["ACK [50@0] {sticker} no such sticker"]

/-- Modelled from the spec: the daemon acknowledges a well-formed
`sticker set` with a single `OK` line. -/
def serverStickerSetReply : List String := ["OK"]

/-- `playcountSticker` from playcount.go. -/
def playcountSticker : String := "playcount"

/-- The message of the `strconv.Atoi` error returned by Go. -/
def atoiErr (s : String) : GoError :=
  .err ("strconv.Atoi: parsing \"" ++ s ++ "\": invalid syntax")

/-- `incSongPlayCount` from playcount.go: read the sticker (through the
wire-level `StickerGet` against the modelled daemon reply for the current
store), treat empty as "0", `Atoi`, add one (64-bit wrap), write back via
`StickerSet`, and return the new value together with the updated store. -/
def incSongPlayCount (songInfo : Info) (store : Store) : Except GoError (Int × Store) :=
  let file := Info.getD songInfo "file"
  match StickerGet (serverStickerGetReply playcountSticker (List.lookup file store)) with
  | .error e => .error e
  | .ok (value, _) =>
    let value := if value.length = 0 then "0" else value
    match Atoi value with
    | none => .error (atoiErr value)
    | some intval =>
      let intval := wrap64 (intval + 1)
      match StickerSet serverStickerSetReply with
      | .error e => .error e
      | .ok _ => .ok (intval, (file, Itoa intval) :: store)

/-- `songStatusInfo` from playcount.go. -/
structure SongStatusInfo where
  StatusInfo : Info
  SongInfo : Info
deriving DecidableEq, Repr

/-- `checkSongChange` from playcount.go, with the freshly fetched status
(the result of `mpdc.Status()`) and the sticker store as explicit inputs.
Returns the updated tracker state, the updated store, and the play count
reported by an increment, when one happened. -/
def checkSongChange (si : SongStatusInfo) (freshStatus : Info) (store : Store) :
    Except GoError (SongStatusInfo × Store × Option Int) :=
  if Info.getD freshStatus "songid" ≠ Info.getD si.StatusInfo "songid" then
    match considerSongPlayed si.StatusInfo songPlayedThresholdSeconds with
    | .error e => .error e
    | .ok played =>
      if played then
        match incSongPlayCount si.SongInfo store with
        | .error e => .error e
        | .ok (n, store') => .ok ({ si with StatusInfo := freshStatus }, store', some n)
      else .ok ({ si with StatusInfo := freshStatus }, store, none)
  else .ok ({ si with StatusInfo := freshStatus }, store, none)

/-- `updateSongInfo` from playcount.go, with the freshly fetched current
song (the result of `mpdc.CurrentSong()`) as an explicit input. -/
def updateSongInfo (si : SongStatusInfo) (freshSong : Info) : SongStatusInfo :=
  { si with SongInfo := freshSong }

/-- `processStateUpdate` from playcount.go: `checkSongChange` first, then
the current-song refresh. -/
def processStateUpdate (si : SongStatusInfo) (freshStatus freshSong : Info) (store : Store) :
    Except GoError (SongStatusInfo × Store × Option Int) :=
  match checkSongChange si freshStatus store with
  | .error e => .error e
  | .ok (si', store', inc) => .ok (updateSongInfo si' freshSong, store', inc)

/-- `infoFieldSep` from client.go. -/
def infoFieldSep : String := ": "

/-- `Info.AddInfo` from client.go: split the line at the first `": "` into
key and value. -/
def Info.AddInfo (info : Info) (data : String) : Except GoError Info :=
  match strIndex infoFieldSep.toList data.toList with
  | none => .error (.err ("Invalid input: " ++ data))
  | some j =>
    .ok (Info.insert info (String.mk (data.toList.take j))
      (String.mk (data.toList.drop (j + infoFieldSep.length))))

/-- `fillInfoUntilOK` from client.go, over a stream of reply lines: parse
`key: value` lines into the Info until an `OK` line, returning the Info and
the unconsumed remainder of the stream. -/
def fillInfoUntilOK (info : Info) : List String → Except GoError (Info × List String)
  | [] => .error (.err "read error")
  | line :: rest =>
    if line = "OK" then .ok (info, rest)
    else
      match Info.AddInfo info line with
      | .error e => .error e
      | .ok info' => fillInfoUntilOK info' rest

/-- `idleSubscription` from client.go; the Go channel is modelled by the
list of messages delivered on it plus a closed flag. -/
structure IdleSub where
  delivered : List String
  closed : Bool
  active : Bool
  subsystems : List String
deriving DecidableEq, Repr

/-- The channel send `subscription.ch <- subsystem` immediately followed by
`subscription.Close()` (close the channel, mark inactive), as performed by
the dispatch loop in `MPDClient.idle`. -/
def deliverClose (s : String) (sub : IdleSub) : IdleSub :=
  { sub with delivered := sub.delivered ++ [s], closed := true, active := false }

/-- The dispatch body of `MPDClient.idle` for one subscription: an active
subscription with an empty interest list is delivered to and closed;
otherwise the interest list is scanned and each entry equal to the reported
subsystem triggers a deliver-and-close. -/
def processSub (s : String) (sub : IdleSub) : IdleSub :=
  if sub.active then
    if sub.subsystems = [] then deliverClose s sub
    else sub.subsystems.foldl (fun acc w => if w = s then deliverClose s acc else acc) sub
  else sub

/-- One round of the dispatch phase of `MPDClient.idle`: if the parsed idle
reply reports a changed subsystem, every subscription is processed;
otherwise (bare `OK`) nothing happens. -/
def dispatchRound (info : Info) (subs : List IdleSub) : List IdleSub :=
  match Info.lookupKey info "changed" with
  | some s => subs.map (processSub s)
  | none => subs

/-- A client-side wire action of the primary connection. -/
inductive WireEvent where
  | write (cmd : String)
  | startResp
  | endResp
deriving DecidableEq, Repr

/-- The wire actions of `MPDClient.noIdle`: write `noidle`, then bracket
(and thereby sequence after the pending idle reply) its response. -/
def noIdleEvents : List WireEvent := [.write "noidle", .startResp, .endResp]

/-- The wire actions of `MPDClient.Cmd`: all of `noIdle`, then the write of
the command text. -/
def cmdEvents (text : String) : List WireEvent :=
  noIdleEvents ++ [.write text]

/-- The outcome of the greeting validation in `Connect`. -/
inductive ConnectOutcome where
  | panicked
  | failed (msg : String)
  | connected
deriving DecidableEq, Repr

/-- The greeting check of `Connect` from client.go: `line[0:6]` panics when
the line is shorter than 6 bytes; otherwise the slice is compared with
`OK MPD` and a mismatch returns the error `MPD: not OK`. -/
def greetingCheck (line : String) : ConnectOutcome :=
  if line.length < 6 then .panicked
  else if line.toList.take 6 = "OK MPD".toList then .connected
  else .failed "MPD: not OK"

theorem mk_data (s : String) : String.mk s.data = s := by
  cases s
  rfl

theorem data_append (a b : String) : (a ++ b).data = a.data ++ b.data := by
  cases a
  cases b
  rfl

theorem lastEq_eq_none {l : List Char} (h : '=' ∉ l) : lastEq l = none := by
  induction l with
  | nil => rfl
  | cons c t ih =>
    have hc : c ≠ '=' := fun hc => h (hc ▸ List.mem_cons_self c t)
    have ht : '=' ∉ t := fun hm => h (List.mem_cons_of_mem c hm)
    simp [lastEq, ih ht, hc]

theorem lastEq_append {xs ys : List Char} (h : '=' ∉ ys) :
    lastEq (xs ++ ys) = lastEq xs := by
  induction xs with
  | nil => simpa [lastEq] using lastEq_eq_none h
  | cons c t ih => simp [lastEq, ih]

theorem strIndex_single_of_not_mem {c : Char} {l : List Char} (h : c ∉ l) :
    strIndex [c] l = none := by
  induction l with
  | nil => rfl
  | cons x t ih =>
    have hx : ¬ ([c].isPrefixOf (x :: t) = true) := by
      simp only [List.isPrefixOf, Bool.and_eq_true, beq_iff_eq, List.isPrefixOf.eq_1]
      intro hc
      exact h (hc.1 ▸ List.mem_cons_self x t)
    have ht : c ∉ t := fun hm => h (List.mem_cons_of_mem x hm)
    simp [strIndex, hx, ih ht]

theorem strIndex_single_append {c : Char} {kl : List Char} (vl : List Char) (h : c ∉ kl) :
    strIndex [c] (kl ++ c :: vl) = some kl.length := by
  induction kl with
  | nil => simp [strIndex, List.isPrefixOf]
  | cons x t ih =>
    have hx : ¬ ([c].isPrefixOf (x :: (t ++ c :: vl)) = true) := by
      simp only [List.isPrefixOf, Bool.and_eq_true, beq_iff_eq, List.isPrefixOf.eq_1]
      intro hc
      exact h (hc.1 ▸ List.mem_cons_self x t)
    have ht : c ∉ t := fun hm => h (List.mem_cons_of_mem x hm)
    simp [strIndex, hx, ih ht]

theorem strIndex_sep {kl : List Char} (vl : List Char) (h : ¬ [':', ' '] <:+: kl) :
    strIndex [':', ' '] (kl ++ ':' :: ' ' :: vl) = some kl.length := by
  induction kl with
  | nil => simp [strIndex, List.isPrefixOf]
  | cons x t ih =>
    have hx : ¬ ([':', ' '].isPrefixOf (x :: (t ++ ':' :: ' ' :: vl)) = true) := by
      intro hc
      rw [List.isPrefixOf_iff_prefix] at hc
      rcases hc with ⟨r, hr⟩
      have hx2 : x = ':' := by
        have := congrArg (fun l => l.head?) hr
        simpa using this.symm
      subst hx2
      cases t with
      | nil =>
        have := congrArg (fun l => l.tail.head?) hr
        simp at this
      | cons y t2 =>
        have hy : y = ' ' := by
          have := congrArg (fun l => l.tail.head?) hr
          simpa using this.symm
        subst hy
        exact h ⟨[], t2, by simp⟩
    have ht : ¬ [':', ' '] <:+: t := fun hi => h (List.infix_cons hi)
    simp [strIndex, hx, ih ht]

theorem svAux_step {l : List Char} (hpre : "sticker: ".toList.isPrefixOf l = true)
    {j : Nat} (hj : lastEq (l.drop 9) = some j) (h1 : 1 ≤ j) :
    svAux l = some (String.mk ((l.drop 9).drop (j + 1))) := by
  cases l with
  | nil => simp [List.isPrefixOf] at hpre
  | cons c t =>
    have hj' : lastEq (t.drop 8) = some j := hj
    simp at hpre
    obtain ⟨hc, hpre2⟩ := hpre
    subst hc
    simp [svAux, hpre2, hj', h1, List.drop_drop]

theorem stickerValue_playcount (s : String) (h : '=' ∉ s.data) :
    stickerValue ("sticker: playcount=" ++ s) = some s := by
  show svAux ("sticker: playcount=" ++ s).data = some s
  rw [data_append]
  have hsplit : "sticker: playcount=".data ++ s.data =
      "sticker: ".data ++ ("playcount=".data ++ s.data) := by
    rw [← List.append_assoc]
    rfl
  have hdrop : ("sticker: playcount=".data ++ s.data).drop 9 = "playcount=".data ++ s.data := by
    rw [hsplit, show (9 : Nat) = "sticker: ".data.length from rfl, List.drop_left]
  have hpre : "sticker: ".toList.isPrefixOf ("sticker: playcount=".data ++ s.data) = true := by
    rw [List.isPrefixOf_iff_prefix, hsplit]
    exact List.prefix_append _ _
  have hlast : lastEq (("sticker: playcount=".data ++ s.data).drop 9) = some 9 := by
    rw [hdrop, lastEq_append h]
    rfl
  rw [svAux_step hpre hlast (by norm_num), hdrop,
    show (9 : Nat) + 1 = "playcount=".data.length from rfl, List.drop_left, mk_data]

theorem addInfo_pair (info : Info) (k v : String) (h : ¬ [':', ' '] <:+: k.data) :
    Info.AddInfo info (k ++ ": " ++ v) = .ok (Info.insert info k v) := by
  have hd : (k ++ ": " ++ v).data = k.data ++ ':' :: ' ' :: v.data := by
    rw [data_append, data_append, List.append_assoc]
    rfl
  unfold Info.AddInfo
  rw [show (k ++ ": " ++ v).toList = (k ++ ": " ++ v).data from rfl, hd,
    show infoFieldSep.toList = [':', ' '] from rfl, strIndex_sep v.data h]
  have htake : (k.data ++ ':' :: ' ' :: v.data).take k.data.length = k.data :=
    List.take_left _ _
  have hdrop : (k.data ++ ':' :: ' ' :: v.data).drop (k.data.length + infoFieldSep.length) =
      v.data := by
    rw [show infoFieldSep.length = 2 from rfl,
      show k.data ++ ':' :: ' ' :: v.data = (k.data ++ [':', ' ']) ++ v.data by simp,
      show k.data.length + 2 = (k.data ++ [':', ' ']).length by simp, List.drop_left]
  show Except.ok (Info.insert info
      (String.mk ((k.data ++ ':' :: ' ' :: v.data).take k.data.length))
      (String.mk ((k.data ++ ':' :: ' ' :: v.data).drop (k.data.length + infoFieldSep.length)))) =
    Except.ok (Info.insert info k v)
  rw [htake, hdrop, mk_data, mk_data]

theorem parseDigitsAux_no_eq {l : List Char} :
    ∀ {acc n : Nat}, parseDigitsAux acc l = some n → '=' ∉ l := by
  induction l with
  | nil =>
    intro acc n _ hm
    exact List.not_mem_nil _ hm
  | cons c t ih =>
    intro acc n hp hm
    rw [parseDigitsAux] at hp
    cases hd : digitVal c with
    | none => rw [hd] at hp; cases hp
    | some d =>
      rw [hd] at hp
      rcases List.mem_cons.mp hm with h1 | h2
      · rw [← h1] at hd
        simp [digitVal] at hd
      · exact ih hp h2

theorem parseDigits_no_eq {l : List Char} {n : Nat} (h : parseDigits l = some n) :
    '=' ∉ l := by
  cases l with
  | nil => intro hm; exact List.not_mem_nil _ hm
  | cons c t => exact parseDigitsAux_no_eq (l := c :: t) h

theorem parseSignedInt_no_eq {l : List Char} {n : Int} (h : parseSignedInt l = some n) :
    '=' ∉ l := by
  rw [parseSignedInt.eq_def] at h
  split at h
  next t =>
    cases hm : parseDigits t with
    | none => rw [hm] at h; cases h
    | some m =>
      intro hmem
      rcases List.mem_cons.mp hmem with h1 | h2
      · exact absurd h1 (by decide)
      · exact parseDigits_no_eq hm h2
  next t =>
    cases hm : parseDigits t with
    | none => rw [hm] at h; cases h
    | some m =>
      intro hmem
      rcases List.mem_cons.mp hmem with h1 | h2
      · exact absurd h1 (by decide)
      · exact parseDigits_no_eq hm h2
  next _ _ _ =>
    cases hm : parseDigits l with
    | none => rw [hm] at h; cases h
    | some m => exact parseDigits_no_eq hm

theorem parseSignedInt_ne_nil {l : List Char} {n : Int} (h : parseSignedInt l = some n) :
    l ≠ [] := by
  rintro rfl
  simp [parseSignedInt, parseDigits] at h

theorem atoi_some {s : String} {V : Int} (h : Atoi s = some V) :
    parseSignedInt s.data = some V ∧ int64Min ≤ V ∧ V ≤ int64Max := by
  unfold Atoi at h
  cases hp : parseSignedInt s.toList with
  | none => rw [hp] at h; cases h
  | some m =>
    rw [hp] at h
    change (if int64Min ≤ m ∧ m ≤ int64Max then some m else none) = some V at h
    by_cases hr : int64Min ≤ m ∧ m ≤ int64Max
    · rw [if_pos hr] at h
      cases h
      exact ⟨hp, hr⟩
    · rw [if_neg hr] at h
      cases h

theorem wrap64_id {x : Int} (h1 : -(2 ^ 63) ≤ x) (h2 : x < 2 ^ 63) : wrap64 x = x := by
  unfold wrap64
  have h0 : (0 : Int) ≤ x + 2 ^ 63 := by linarith
  have hlt : x + 2 ^ 63 < 2 ^ 64 := by
    have : (2 : Int) ^ 64 = 2 ^ 63 + 2 ^ 63 := by norm_num
    linarith
  rw [Int.emod_eq_of_lt h0 hlt]
  ring

theorem data_key_sep (k v : String) : (k ++ ": " ++ v).data = k.data ++ ':' :: ' ' :: v.data := by
  rw [data_append, data_append, List.append_assoc]
  rfl

theorem ne_ok_of_colon {x : String} (hm : ':' ∈ x.data) : x ≠ "OK" := by
  intro he
  subst he
  revert hm
  decide

theorem fill_encode (rest : List String) :
    ∀ (pairs : List (String × String)) (info : Info),
      (∀ p ∈ pairs, ¬ [':', ' '] <:+: p.1.data) →
      fillInfoUntilOK info (pairs.map (fun p => p.1 ++ ": " ++ p.2) ++ "OK" :: rest) =
        .ok (pairs.foldl (fun i p => Info.insert i p.1 p.2) info, rest) := by
  intro pairs
  induction pairs with
  | nil =>
    intro info _
    simp [fillInfoUntilOK]
  | cons p t ih =>
    intro info hall
    have hm : ':' ∈ (p.1 ++ ": " ++ p.2).data := by
      rw [data_key_sep]
      exact List.mem_append.mpr (Or.inr (List.mem_cons_self _ _))
    have hne : (p.1 ++ ": " ++ p.2) ≠ "OK" := ne_ok_of_colon hm
    simp only [List.map_cons, List.cons_append, fillInfoUntilOK]
    rw [if_neg hne, addInfo_pair info p.1 p.2 (hall p (List.mem_cons_self _ _))]
    exact ih _ (fun q hq => hall q (List.mem_cons_of_mem p hq))

theorem foldl_insert_eq (pairs : List (String × String)) :
    ∀ info : Info,
      pairs.foldl (fun i p => Info.insert i p.1 p.2) info = pairs.reverse ++ info := by
  induction pairs with
  | nil => intro info; simp
  | cons p t ih =>
    intro info
    rw [List.foldl_cons, ih]
    simp [Info.insert]

theorem lookup_append (k : String) (l₁ l₂ : List (String × String)) :
    List.lookup k (l₁ ++ l₂) =
      match List.lookup k l₁ with
      | some v => some v
      | none => List.lookup k l₂ := by
  induction l₁ with
  | nil => rfl
  | cons a t ih =>
    by_cases hk : k = a.1
    · simp [List.lookup, hk]
    · have hk2 : (k == a.1) = false := beq_false_of_ne hk
      simp [List.lookup, hk2, ih]

theorem lookup_eq_none_of_not_mem {k : String} {l : List (String × String)}
    (h : k ∉ l.map Prod.fst) : List.lookup k l = none := by
  induction l with
  | nil => rfl
  | cons a t ih =>
    have hk : k ≠ a.1 := fun he => h (by simp [he])
    have ht : k ∉ t.map Prod.fst := fun hm => h (by simp at hm ⊢; exact Or.inr hm)
    simp [List.lookup, beq_false_of_ne hk, ih ht]

theorem lookup_reverse {k : String} {pairs : List (String × String)}
    (hnd : (pairs.map Prod.fst).Nodup) :
    List.lookup k pairs.reverse = List.lookup k pairs := by
  induction pairs with
  | nil => rfl
  | cons p t ih =>
    rw [List.map_cons, List.nodup_cons] at hnd
    rw [List.reverse_cons, lookup_append, ih hnd.2]
    by_cases hk : k = p.1
    · subst hk
      rw [lookup_eq_none_of_not_mem hnd.1]
      simp [List.lookup]
    · have hk2 : (k == p.1) = false := beq_false_of_ne hk
      simp only [List.lookup, hk2]
      cases List.lookup k t <;> rfl

/-- C2: for every previous status, the played-check returns true iff both
the total time and the elapsed time are nonzero and total minus elapsed is
strictly below the fixed threshold of 10 seconds; elapsed=118, total=120
gives played=true, elapsed=60, total=120 gives played=false, and total=0
gives played=false for every elapsed value. -/
theorem c2_considerSongPlayed :
    ∀ (info : Info) (c t : Int),
      songPlayedThresholdSeconds = 10 ∧
      (Info.Progress info = .ok (c, t) →
        (considerSongPlayed info songPlayedThresholdSeconds = .ok true ↔
          t ≠ 0 ∧ c ≠ 0 ∧ t - c < 10)) ∧
      considerSongPlayed [("time", "118:120")] songPlayedThresholdSeconds = .ok true ∧
      considerSongPlayed [("time", "60:120")] songPlayedThresholdSeconds = .ok false ∧
      (Info.Progress info = .ok (c, 0) →
        considerSongPlayed info songPlayedThresholdSeconds = .ok false) := by
  intro info c t
  refine ⟨rfl, ?_, by decide, by decide, ?_⟩
  · intro h
    simp only [considerSongPlayed, h]
    by_cases h0 : t = 0 ∨ c = 0
    · rw [if_pos h0]
      constructor
      · intro he
        simp at he
      · rintro ⟨h1, h2, _⟩
        rcases h0 with h0 | h0
        · exact absurd h0 h1
        · exact absurd h0 h2
    · rw [if_neg h0]
      push_neg at h0
      constructor
      · intro he
        have hd : decide (t - c < songPlayedThresholdSeconds) = true := by
          simpa using he
        exact ⟨h0.1, h0.2, of_decide_eq_true hd⟩
      · rintro ⟨_, _, h3⟩
        simp [songPlayedThresholdSeconds, h3]
  · intro h
    simp [considerSongPlayed, h]

/-- Witness for C2 at concrete inputs. -/
theorem c2_considerSongPlayed_witness :
    (considerSongPlayed [("time", "118:120")] songPlayedThresholdSeconds = .ok true ↔
      (120 : Int) ≠ 0 ∧ (118 : Int) ≠ 0 ∧ (120 : Int) - 118 < 10) ∧
    considerSongPlayed [("time", "60:0")] songPlayedThresholdSeconds = .ok false :=
  ⟨(c2_considerSongPlayed [("time", "118:120")] 118 120).2.1 (by decide),
   (c2_considerSongPlayed [("time", "60:0")] 60 0).2.2.2.2 (by decide)⟩

/-- C9: a status whose `time` value has no colon makes `Progress` panic
(the Go code slices with index -1); a missing `time` key yields (0, 0); a
parse failure of the elapsed component alone is ignored because its error
is shadowed, so the call returns elapsed 0 with the parsed total. -/
theorem c9_progress_edge :
    ∀ (i : Info) (t : String),
      (Info.lookupKey i "time" = some t → ':' ∉ t.data →
        Info.Progress i = .error (.panic "slice bounds out of range")) ∧
      (Info.lookupKey i "time" = none → Info.Progress i = .ok (0, 0)) ∧
      (∀ (e tot : String) (n : Int),
        Info.lookupKey i "time" = some (e ++ ":" ++ tot) → ':' ∉ e.data →
        parseNum e.data = none → parseNum tot.data = some n →
        Info.Progress i = .ok (0, n)) := by
  intro i t
  refine ⟨?_, ?_, ?_⟩
  · intro hl hc
    have h1 : strIndex [':'] t.toList = none := strIndex_single_of_not_mem (l := t.toList) hc
    simp only [Info.Progress, hl, h1]
  · intro hl
    simp only [Info.Progress, hl]
  · intro e tot n hl hc hpe hpt
    have hd : (e ++ ":" ++ tot).toList = e.data ++ ':' :: tot.data := by
      show (e ++ ":" ++ tot).data = e.data ++ ':' :: tot.data
      rw [data_append, data_append, List.append_assoc]
      rfl
    have htake : (e.data ++ ':' :: tot.data).take e.data.length = e.data :=
      List.take_left _ _
    have hdrop : (e.data ++ ':' :: tot.data).drop (e.data.length + 1) = tot.data := by
      rw [show e.data ++ ':' :: tot.data = (e.data ++ [':']) ++ tot.data by simp,
        show e.data.length + 1 = (e.data ++ [':']).length by simp, List.drop_left]
    have hs2 : strIndex [':'] (e.data ++ ':' :: tot.data) = some e.data.length :=
      strIndex_single_append tot.data hc
    simp only [Info.Progress, hl, hd, hs2, htake, hdrop, hpe, hpt, Option.getD_none]

/-- Witness for C9 at concrete inputs. -/
theorem c9_progress_edge_witness :
    Info.Progress [("time", "abc")] = .error (.panic "slice bounds out of range") ∧
    Info.Progress [("volume", "10")] = .ok (0, 0) ∧
    Info.Progress [("time", "abc:120")] = .ok (0, 120) :=
  ⟨(c9_progress_edge [("time", "abc")] "abc").1 (by decide) (by decide),
   (c9_progress_edge [("volume", "10")] "").2.1 (by decide),
   (c9_progress_edge [("time", "abc:120")] "").2.2 "abc" "120" 120
     (by decide) (by decide) (by decide) (by decide)⟩

/-- C10: a first stickerGet reply line that neither matches the sticker
pattern nor contains `ACK` makes the call return the empty string with no
error, consuming no further line: the remainder of the stream (holding the
terminating `OK`) is left unread. -/
theorem c10_stickerGet_early_return :
    ∀ (line : String) (rest : List String),
      stickerValue line = none → isMPDError line = false →
      StickerGet (line :: rest) = .ok ("", rest) := by
  intro line rest h1 h2
  simp [StickerGet, h1, h2]

/-- Witness for C10: a garbage line returns empty with the `OK` line still
on the stream. -/
theorem c10_stickerGet_early_return_witness :
    StickerGet ["garbage", "OK"] = .ok ("", ["OK"]) :=
  c10_stickerGet_early_return "garbage" ["OK"] (by decide) (by decide)

/-- C8, counterexample: the greeting line `OK` (shorter than 6 bytes) does
not carry the expected greeting prefix, yet `Connect` panics on the slice
`line[0:6]` instead of failing with the error. -/
theorem c8_counterexample :
    "OK MPD".toList.isPrefixOf "OK".toList = false ∧
    greetingCheck "OK" = ConnectOutcome.panicked ∧
    greetingCheck "OK" ≠ ConnectOutcome.failed "MPD: not OK" := by
  decide

/-- C8, amended: Connect succeeds exactly when the greeting line starts
with `OK MPD`; a line of at least 6 characters without that prefix fails
with the error `MPD: not OK`; a line shorter than 6 characters panics
instead of returning an error. -/
theorem c8_greeting_amended :
    ∀ line : String,
      (greetingCheck line = ConnectOutcome.connected ↔
        "OK MPD".toList.isPrefixOf line.toList = true) ∧
      (6 ≤ line.length → "OK MPD".toList.isPrefixOf line.toList = false →
        greetingCheck line = ConnectOutcome.failed "MPD: not OK") ∧
      (line.length < 6 → greetingCheck line = ConnectOutcome.panicked) := by
  intro line
  have hP : ("OK MPD".toList.isPrefixOf line.toList = true) ↔
      line.toList.take 6 = "OK MPD".toList := by
    rw [List.isPrefixOf_iff_prefix, List.prefix_iff_eq_take,
      show ("OK MPD".toList).length = 6 from rfl]
    exact eq_comm
  refine ⟨?_, ?_, ?_⟩
  · by_cases hlen : line.length < 6
    · unfold greetingCheck
      rw [if_pos hlen]
      constructor
      · intro h
        exact absurd h (by decide)
      · intro h
        rw [hP] at h
        have hle := congrArg List.length h
        rw [List.length_take] at hle
        have h6 : 6 ≤ line.toList.length := by
          calc 6 = min 6 line.toList.length := by
                rw [hle]
                rfl
            _ ≤ line.toList.length := Nat.min_le_right _ _
        exact absurd h6 (Nat.not_le.mpr hlen)
    · unfold greetingCheck
      rw [if_neg hlen]
      by_cases ht : line.toList.take 6 = "OK MPD".toList
      · rw [if_pos ht]
        constructor
        · intro _
          rw [hP]
          exact ht
        · intro _
          rfl
      · rw [if_neg ht]
        constructor
        · intro h
          exact absurd h (by decide)
        · intro h
          rw [hP] at h
          exact absurd h ht
  · intro h6 hpf
    unfold greetingCheck
    rw [if_neg (by omega : ¬ line.length < 6)]
    have ht : line.toList.take 6 ≠ "OK MPD".toList := by
      intro he
      rw [← hP] at he
      rw [he] at hpf
      cases hpf
    rw [if_neg ht]
  · intro h
    unfold greetingCheck
    rw [if_pos h]

/-- Witness for the amended C8 at concrete greeting lines. -/
theorem c8_greeting_amended_witness :
    greetingCheck "OK MPD 0.17" = ConnectOutcome.connected ∧
    greetingCheck "banana" = ConnectOutcome.failed "MPD: not OK" ∧
    greetingCheck "OK" = ConnectOutcome.panicked :=
  ⟨(c8_greeting_amended "OK MPD 0.17").1.mpr (by decide),
   (c8_greeting_amended "banana").2.1 (by decide) (by decide),
   (c8_greeting_amended "OK").2.2 (by decide)⟩

/-- C4, counterexample: the reply line `sticker: ACK=1` contains the error
marker `ACK` and does not report a missing sticker, yet StickerGet matches
it against the sticker regexp and returns the value `1` with no error. -/
theorem c4_counterexample :
    isMPDError "sticker: ACK=1" = true ∧
    containsSub "sticker: ACK=1" "no such sticker" = false ∧
    StickerGet ["sticker: ACK=1", "OK"] = .ok ("1", []) := by
  decide

/-- C4, amended: for a first reply line that does not match the sticker
pattern, a line reporting `no such sticker` yields the empty string with no
error, and any other `ACK`-carrying line yields an error naming the raw
line; on a line matching the sticker pattern the call consumes a following
`OK` line, failing with an error naming the offending line otherwise. -/
theorem c4_stickerGet_replies :
    ∀ (line bad v : String) (rest : List String),
      (stickerValue line = none → containsSub line "no such sticker" = true →
        StickerGet (line :: rest) = .ok ("", rest)) ∧
      (stickerValue line = none → isMPDError line = true →
        containsSub line "no such sticker" = false →
        StickerGet (line :: rest) = .error (.err ("StickerGet: " ++ line))) ∧
      (stickerValue line = some v →
        StickerGet (line :: "OK" :: rest) = .ok (v, rest)) ∧
      (stickerValue line = some v → bad ≠ "OK" →
        StickerGet (line :: bad :: rest) =
          .error (.err ("StickerGet didn't receive OK line: " ++ bad))) := by
  intro line bad v rest
  refine ⟨?_, ?_, ?_, ?_⟩
  · intro h1 h2
    by_cases hm : isMPDError line = false
    · simp [StickerGet, h1, hm]
    · have hm2 : isMPDError line = true := by
        revert hm
        cases isMPDError line <;> simp
      simp [StickerGet, h1, hm2, h2]
  · intro h1 h2 h3
    simp [StickerGet, h1, h2, h3]
  · intro h
    simp [StickerGet, h]
  · intro h hbad
    simp [StickerGet, h, hbad]

/-- Witness for the amended C4 on concrete reply streams. -/
theorem c4_stickerGet_replies_witness :
    StickerGet ["ACK [50@0] {sticker} no such sticker", "OK"] = .ok ("", ["OK"]) ∧
    StickerGet ["ACK [5@0] {idle} unknown command", "OK"] =
      .error (.err ("StickerGet: " ++ "ACK [5@0] {idle} unknown command")) ∧
    StickerGet ["sticker: playcount=3", "OK"] = .ok ("3", []) ∧
    StickerGet ["sticker: playcount=3", "huh"] =
      .error (.err ("StickerGet didn't receive OK line: " ++ "huh")) :=
  ⟨(c4_stickerGet_replies "ACK [50@0] {sticker} no such sticker" "" "" ["OK"]).1
      (by decide) (by decide),
   (c4_stickerGet_replies "ACK [5@0] {idle} unknown command" "" "" ["OK"]).2.1
      (by decide) (by decide) (by decide),
   (c4_stickerGet_replies "sticker: playcount=3" "" "3" []).2.2.1 (by decide),
   (c4_stickerGet_replies "sticker: playcount=3" "huh" "3" []).2.2.2 (by decide) (by decide)⟩

/-- C1: Cmd performs all of noIdle's wire actions (the `noidle` write and
its response bracketing, which the pipelining discipline orders after the
pending idle reply) strictly before writing the command text; and the idle
reply — bare `OK` or a `changed` line followed by `OK` — is consumed in
full by the idle loop's reader, so the stream position handed to the
on-demand command's reader starts exactly at the command's own reply and
contains no wait-mode line. -/
theorem c1_cmd_interrupt_first :
    ∀ (text s : String) (rest : List String),
      (text ≠ "noidle" →
        (cmdEvents text).indexOf (WireEvent.write "noidle") = 0 ∧
        (cmdEvents text).indexOf (WireEvent.write text) = 3) ∧
      fillInfoUntilOK [] ("OK" :: rest) = .ok ([], rest) ∧
      fillInfoUntilOK [] (("changed: " ++ s) :: "OK" :: rest) =
        .ok ([("changed", s)], rest) := by
  intro text s rest
  refine ⟨?_, by simp [fillInfoUntilOK], ?_⟩
  · intro hne
    constructor
    · rfl
    · have h1 : (WireEvent.write text == WireEvent.write "noidle") = false := by
        simp [hne]
      have h2 : (WireEvent.write "noidle" == WireEvent.write text) = false := by
        simp [Ne.symm hne]
      simp [cmdEvents, noIdleEvents, List.indexOf_cons, h1, h2]
  · have hm : ':' ∈ ("changed: " ++ s).data := by
      rw [data_append]
      exact List.mem_append.mpr (Or.inl (by decide))
    have hne2 : ("changed: " ++ s) ≠ "OK" := ne_ok_of_colon hm
    have key : Info.AddInfo [] ("changed: " ++ s) = .ok [("changed", s)] := by
      rw [show ("changed: " ++ s) = ("changed" ++ ": " ++ s) from rfl]
      exact addInfo_pair [] "changed" s (by decide)
    simp [fillInfoUntilOK, hne2, key]

/-- Witness for C1 at a concrete command and idle reply. -/
theorem c1_cmd_interrupt_first_witness :
    (cmdEvents "status").indexOf (WireEvent.write "noidle") = 0 ∧
    (cmdEvents "status").indexOf (WireEvent.write "status") = 3 :=
  (c1_cmd_interrupt_first "status" "player" []).1 (by decide)

/-- C7: a reply of well-formed `key: value` lines terminated by `OK` parses
into an Info that recovers exactly the key/value pairs, values verbatim
(colons after the first separator included, since the split is at the first
`": "`); a line without the separator fails with an error naming the line. -/
theorem c7_fillInfo_roundtrip :
    ∀ (pairs : List (String × String)) (rest : List String),
      ((∀ p ∈ pairs, ¬ [':', ' '] <:+: p.1.data) → (pairs.map Prod.fst).Nodup →
        ∃ info,
          fillInfoUntilOK [] (pairs.map (fun p => p.1 ++ ": " ++ p.2) ++ "OK" :: rest) =
            .ok (info, rest) ∧
          ∀ k, List.lookup k info = List.lookup k pairs) ∧
      (∀ (line : String) (i : Info) (rest2 : List String),
        containsSub line infoFieldSep = false → line ≠ "OK" →
        fillInfoUntilOK i (line :: rest2) = .error (.err ("Invalid input: " ++ line))) := by
  intro pairs rest
  constructor
  · intro hall hnd
    refine ⟨pairs.reverse, ?_, ?_⟩
    · rw [fill_encode rest pairs [] hall, foldl_insert_eq, List.append_nil]
    · intro k
      exact lookup_reverse hnd
  · intro line i rest2 hcs hne
    have hidx : strIndex infoFieldSep.data line.data = none := by
      have hcs2 : (strIndex infoFieldSep.data line.data).isSome = false := hcs
      cases hsi : strIndex infoFieldSep.data line.data
      · rfl
      · rw [hsi] at hcs2
        simp at hcs2
    simp [fillInfoUntilOK, hne, Info.AddInfo, hidx]

/-- Witness for C7: a concrete reply with an embedded colon in a value, and
a malformed line. -/
theorem c7_fillInfo_roundtrip_witness :
    (∃ info,
      fillInfoUntilOK []
          ([("volume", "50"), ("Title", "a: b:c")].map (fun p => p.1 ++ ": " ++ p.2) ++
            "OK" :: ["extra"]) = .ok (info, ["extra"]) ∧
      ∀ k, List.lookup k info = List.lookup k [("volume", "50"), ("Title", "a: b:c")]) ∧
    fillInfoUntilOK [] ["garbage"] = .error (.err ("Invalid input: " ++ "garbage")) :=
  ⟨(c7_fillInfo_roundtrip [("volume", "50"), ("Title", "a: b:c")] ["extra"]).1
      (by decide) (by decide),
   (c7_fillInfo_roundtrip [] []).2 "garbage" [] [] (by decide) (by decide)⟩

theorem foldl_deliver_noop {s : String} :
    ∀ {l : List String}, s ∉ l → ∀ acc : IdleSub,
      l.foldl (fun acc w => if w = s then deliverClose s acc else acc) acc = acc := by
  intro l
  induction l with
  | nil => intro _ acc; rfl
  | cons w t ih =>
    intro h acc
    have hw : w ≠ s := fun he => h (he ▸ List.mem_cons_self w t)
    have ht : s ∉ t := fun hm => h (List.mem_cons_of_mem w hm)
    simp only [List.foldl_cons, if_neg hw]
    exact ih ht acc

/-- C5: when an idle reply reports a changed subsystem, every subscription
is processed: an active one whose interest set (a duplicate-free list) is
empty or contains the name gets exactly one delivery and is closed and
deactivated; an active one with a nonempty interest set not containing the
name is untouched and stays open; an inactive one is untouched; and a bare
`OK` reply (no `changed` key) dispatches to nobody. -/
theorem c5_idle_dispatch :
    ∀ (info : Info) (s : String) (subs : List IdleSub) (sub : IdleSub),
      (Info.lookupKey info "changed" = some s →
        dispatchRound info subs = subs.map (processSub s)) ∧
      (Info.lookupKey info "changed" = none → dispatchRound info subs = subs) ∧
      (sub.active = true →
        (sub.subsystems = [] ∨ (s ∈ sub.subsystems ∧ sub.subsystems.Nodup)) →
        processSub s sub = deliverClose s sub ∧
        (deliverClose s sub).delivered = sub.delivered ++ [s] ∧
        (deliverClose s sub).closed = true ∧
        (deliverClose s sub).active = false) ∧
      (sub.active = true → sub.subsystems ≠ [] → s ∉ sub.subsystems →
        processSub s sub = sub) ∧
      (sub.active = false → processSub s sub = sub) := by
  intro info s subs sub
  refine ⟨?_, ?_, ?_, ?_, ?_⟩
  · intro h
    simp [dispatchRound, h]
  · intro h
    simp [dispatchRound, h]
  · intro hact hcase
    refine ⟨?_, rfl, rfl, rfl⟩
    rcases hcase with hemp | ⟨hmem, hnd⟩
    · simp [processSub, hact, hemp]
    · have hne : sub.subsystems ≠ [] := by
        intro he
        rw [he] at hmem
        exact List.not_mem_nil s hmem
      obtain ⟨l₁, l₂, he⟩ := List.append_of_mem hmem
      rw [he] at hnd
      rw [List.nodup_append] at hnd
      have h1 : s ∉ l₁ := fun hm => hnd.2.2 hm (List.mem_cons_self s l₂)
      have h2 : s ∉ l₂ := (List.nodup_cons.mp hnd.2.1).1
      unfold processSub
      rw [if_pos hact, if_neg hne, he, List.foldl_append, foldl_deliver_noop h1,
        List.foldl_cons, if_pos rfl, foldl_deliver_noop h2]
  · intro hact hne hnm
    unfold processSub
    rw [if_pos hact, if_neg hne, foldl_deliver_noop hnm]
  · intro hact
    simp [processSub, hact]

/-- Witness for C5: two empty-interest subscribers both get one `player`
delivery and are closed, a `mixer`-only subscriber is untouched, and a bare
`OK` dispatches nothing. -/
theorem c5_idle_dispatch_witness :
    dispatchRound [("changed", "player")]
        [⟨[], false, true, []⟩, ⟨[], false, true, []⟩, ⟨[], false, true, ["mixer"]⟩] =
      [⟨["player"], true, false, []⟩, ⟨["player"], true, false, []⟩,
        ⟨[], false, true, ["mixer"]⟩] ∧
    processSub "player" ⟨[], false, true, ["mixer"]⟩ = ⟨[], false, true, ["mixer"]⟩ ∧
    (processSub "player" ⟨[], false, true, ["player", "mixer"]⟩ =
      deliverClose "player" ⟨[], false, true, ["player", "mixer"]⟩) ∧
    dispatchRound [] [⟨[], false, true, []⟩] = [⟨[], false, true, []⟩] :=
  ⟨((c5_idle_dispatch [("changed", "player")] "player"
        [⟨[], false, true, []⟩, ⟨[], false, true, []⟩, ⟨[], false, true, ["mixer"]⟩]
        ⟨[], false, true, []⟩).1 (by decide)).trans (by decide),
   (c5_idle_dispatch [] "player" [] ⟨[], false, true, ["mixer"]⟩).2.2.2.1
      (by decide) (by decide) (by decide),
   ((c5_idle_dispatch [] "player" [] ⟨[], false, true, ["player", "mixer"]⟩).2.2.1
      (by decide) (Or.inr ⟨by decide, by decide⟩)).1,
   (c5_idle_dispatch [] "player" [⟨[], false, true, []⟩] ⟨[], false, true, []⟩).2.1
      (by decide)⟩

/-- C6: the tracker's update step never increments when the fresh status
carries the same song id as the previously recorded one (store untouched,
no count reported); the increment outcome is computed from the previous
status's times and the previous current-song (it does not depend on the
freshly fetched current song); and the cached current-song is set to the
fresh one only in the final state, after the played-check. -/
theorem c6_update_step :
    ∀ (si : SongStatusInfo) (freshStatus freshSong : Info) (store : Store),
      (Info.getD freshStatus "songid" = Info.getD si.StatusInfo "songid" →
        processStateUpdate si freshStatus freshSong store =
          .ok (⟨freshStatus, freshSong⟩, store, none)) ∧
      (∀ freshSong2 : Info,
        (processStateUpdate si freshStatus freshSong store).map (fun r => r.2) =
          (processStateUpdate si freshStatus freshSong2 store).map (fun r => r.2)) ∧
      (∀ (si2 : SongStatusInfo) (store2 : Store) (inc : Option Int),
        processStateUpdate si freshStatus freshSong store = .ok (si2, store2, inc) →
        si2.SongInfo = freshSong) ∧
      (Info.getD freshStatus "songid" ≠ Info.getD si.StatusInfo "songid" →
        considerSongPlayed si.StatusInfo songPlayedThresholdSeconds = .ok false →
        processStateUpdate si freshStatus freshSong store =
          .ok (⟨freshStatus, freshSong⟩, store, none)) ∧
      (Info.getD freshStatus "songid" ≠ Info.getD si.StatusInfo "songid" →
        considerSongPlayed si.StatusInfo songPlayedThresholdSeconds = .ok true →
        processStateUpdate si freshStatus freshSong store =
          (incSongPlayCount si.SongInfo store).map
            (fun p => (⟨freshStatus, freshSong⟩, p.2, some p.1))) := by
  intro si freshStatus freshSong store
  refine ⟨?_, ?_, ?_, ?_, ?_⟩
  · intro h
    simp [processStateUpdate, checkSongChange, updateSongInfo, h]
  · intro freshSong2
    cases hc : checkSongChange si freshStatus store with
    | error e => simp [processStateUpdate, hc]
    | ok t => simp [processStateUpdate, hc, Except.map]
  · intro si2 store2 inc h
    cases hc : checkSongChange si freshStatus store with
    | error e =>
      rw [processStateUpdate, hc] at h
      cases h
    | ok t =>
      obtain ⟨si3, store3, inc3⟩ := t
      rw [processStateUpdate, hc] at h
      simp only [Except.ok.injEq, Prod.mk.injEq] at h
      rw [← h.1]
      rfl
  · intro hne hpl
    simp [processStateUpdate, checkSongChange, updateSongInfo, hne, hpl]
  · intro hne hpl
    cases hi : incSongPlayCount si.SongInfo store with
    | error e =>
      simp [processStateUpdate, checkSongChange, updateSongInfo, hne, hpl, hi, Except.map]
    | ok p =>
      obtain ⟨n, store2⟩ := p
      simp [processStateUpdate, checkSongChange, updateSongInfo, hne, hpl, hi, Except.map]

/-- Witness for C6: a same-song-id run leaves the store untouched; a
song-change run with a played previous status increments the previous
song's counter and then installs the fresh song. -/
theorem c6_update_step_witness :
    processStateUpdate ⟨[("songid", "1"), ("time", "118:120")], [("file", "f")]⟩
        [("songid", "1")] [("file", "g")] [] =
      .ok (⟨[("songid", "1")], [("file", "g")]⟩, [], none) ∧
    processStateUpdate ⟨[("songid", "1"), ("time", "118:120")], [("file", "f")]⟩
        [("songid", "2")] [("file", "g")] [] =
      .ok (⟨[("songid", "2")], [("file", "g")]⟩, [("f", "1")], some 1) :=
  ⟨(c6_update_step ⟨[("songid", "1"), ("time", "118:120")], [("file", "f")]⟩
      [("songid", "1")] [("file", "g")] []).1 (by decide),
   ((c6_update_step ⟨[("songid", "1"), ("time", "118:120")], [("file", "f")]⟩
      [("songid", "2")] [("file", "g")] []).2.2.2.2 (by decide) (by decide)).trans
      (by decide)⟩

/-- C3, counterexample: the stored sticker value `a=5` is non-empty and
non-numeric, yet the increment call succeeds: the greedy sticker regexp
truncates the reply `sticker: playcount=a=5` to the segment after the last
`=`, so the call parses `5`, returns 6 and writes 6 back, with no error. -/
theorem c3_counterexample :
    Atoi "a=5" = none ∧ "a=5" ≠ "" ∧
    incSongPlayCount [("file", "f")] [("f", "a=5")] = .ok (6, [("f", "6"), ("f", "a=5")]) := by
  decide

/-- C3, amended: a missing or empty stored counter increments to 1; a
stored value reading as a decimal integer V (below the maximum 64-bit
integer, whose increment would wrap) is written back and returned as V+1;
a non-empty, non-numeric stored value containing no `=` character fails
with the Atoi data-format error (values containing `=` are first truncated
by the reply regexp to the segment after their last `=`). -/
theorem c3_increment_amended :
    ∀ (songInfo : Info) (store : Store) (s : String) (V : Int),
      (List.lookup (Info.getD songInfo "file") store = none →
        incSongPlayCount songInfo store =
          .ok (1, (Info.getD songInfo "file", "1") :: store)) ∧
      (List.lookup (Info.getD songInfo "file") store = some "" →
        incSongPlayCount songInfo store =
          .ok (1, (Info.getD songInfo "file", "1") :: store)) ∧
      (List.lookup (Info.getD songInfo "file") store = some s → Atoi s = some V →
        V ≠ int64Max →
        incSongPlayCount songInfo store =
          .ok (V + 1, (Info.getD songInfo "file", Itoa (V + 1)) :: store)) ∧
      (List.lookup (Info.getD songInfo "file") store = some s → s ≠ "" → Atoi s = none →
        '=' ∉ s.data →
        incSongPlayCount songInfo store = .error (atoiErr s)) := by
  intro songInfo store s V
  refine ⟨?_, ?_, ?_, ?_⟩
  · intro h
    simp only [incSongPlayCount, h,
      show StickerGet (serverStickerGetReply playcountSticker none) = .ok ("", []) from by decide,
      show ("".length = 0) = True from by simp, if_true,
      show Atoi "0" = some 0 from by decide,
      show StickerSet serverStickerSetReply = .ok [] from by decide,
      show wrap64 (0 + 1) = 1 from by decide,
      show Itoa 1 = "1" from by decide]
  · intro h
    simp only [incSongPlayCount, h,
      show StickerGet (serverStickerGetReply playcountSticker (some "")) = .ok ("", []) from
        by decide,
      show ("".length = 0) = True from by simp, if_true,
      show Atoi "0" = some 0 from by decide,
      show StickerSet serverStickerSetReply = .ok [] from by decide,
      show wrap64 (0 + 1) = 1 from by decide,
      show Itoa 1 = "1" from by decide]
  · intro h hA hmax
    obtain ⟨hp, hmin, hmax'⟩ := atoi_some hA
    have hnoeq : '=' ∉ s.data := parseSignedInt_no_eq hp
    have hnil : s.data ≠ [] := parseSignedInt_ne_nil hp
    have hlen : ¬ (s.length = 0) := by
      intro h0
      exact hnil (List.length_eq_zero.mp h0)
    have hget : StickerGet (serverStickerGetReply playcountSticker (some s)) = .ok (s, []) := by
      show StickerGet ["sticker: " ++ playcountSticker ++ "=" ++ s, "OK"] = .ok (s, [])
      rw [show ("sticker: " ++ playcountSticker ++ "=" ++ s) = "sticker: playcount=" ++ s
        from rfl]
      simp [StickerGet, stickerValue_playcount s hnoeq]
    have hw : wrap64 (V + 1) = V + 1 := by
      apply wrap64_id
      · have : -(2 ^ 63) ≤ V := hmin
        linarith
      · have h1 : V ≤ 2 ^ 63 - 1 := hmax'
        have h2 : V ≠ 2 ^ 63 - 1 := hmax
        omega
    simp only [incSongPlayCount, h, hget, if_neg hlen, hA,
      show StickerSet serverStickerSetReply = .ok [] from by decide, hw]
  · intro h hne hA hnoeq
    have hlen : ¬ (s.length = 0) := by
      intro h0
      have : s.data = [] := List.length_eq_zero.mp h0
      exact hne (by rw [← mk_data s, this])
    have hget : StickerGet (serverStickerGetReply playcountSticker (some s)) = .ok (s, []) := by
      show StickerGet ["sticker: " ++ playcountSticker ++ "=" ++ s, "OK"] = .ok (s, [])
      rw [show ("sticker: " ++ playcountSticker ++ "=" ++ s) = "sticker: playcount=" ++ s
        from rfl]
      simp [StickerGet, stickerValue_playcount s hnoeq]
    simp only [incSongPlayCount, h, hget, if_neg hlen, hA]

/-- Witness for the amended C3: fresh counter goes to 1, an existing 41
goes to 42, a second serialized increment from the fresh store yields 2,
and a plain non-numeric value errors. -/
theorem c3_increment_amended_witness :
    incSongPlayCount [("file", "f")] [] = .ok (1, [("f", "1")]) ∧
    incSongPlayCount [("file", "f")] [("f", "41")] = .ok (42, [("f", "42"), ("f", "41")]) ∧
    incSongPlayCount [("file", "f")] [("f", "1")] = .ok (2, [("f", "2"), ("f", "1")]) ∧
    incSongPlayCount [("file", "f")] [("f", "x")] = .error (atoiErr "x") :=
  ⟨(c3_increment_amended [("file", "f")] [] "" 0).1 (by decide),
   ((c3_increment_amended [("file", "f")] [("f", "41")] "41" 41).2.2.1
      (by decide) (by decide) (by decide)).trans (by decide),
   ((c3_increment_amended [("file", "f")] [("f", "1")] "1" 1).2.2.1
      (by decide) (by decide) (by decide)).trans (by decide),
   (c3_increment_amended [("file", "f")] [("f", "x")] "x" 0).2.2.2
      (by decide) (by decide) (by decide) (by decide)⟩

end Mpdfav
